import Mathlib

/-
Verification of the Kubernetes validating-webhook example (cmd/root.go).

The embedding models:
  * the Pod policy check (cmd/root.go, lines 120-133 of validatePod);
  * the admission-review plumbing of validatePod and
    admissionReviewFromRequest, with the external deserializer and JSON
    marshaller abstracted as environment functions;
  * the apimachinery helpers ParseGroupVersion, GroupVersion.String,
    FromAPIVersionAndKind, TypeMeta.GroupVersionKind and
    TypeMeta.SetGroupVersionKind, which line 138
    (SetGroupVersionKind(request.GroupVersionKind())) invokes.

Bytes are modelled as List Nat; a Go map[string]string is modelled as an
association list queried with List.lookup; a Go nil pointer is an Option
that is none, and dereferencing it (a panic) makes the handler return none.
-/

namespace ValidatingWebhook

/-- metav1.GroupVersionResource: the (group, version, resource) triple. -/
structure GroupVersionResource where
  group : String
  version : String
  resource : String
deriving DecidableEq, Repr

/-- runtime.RawExtension: the raw serialized bytes of the embedded object. -/
structure RawExtension where
  raw : List Nat
deriving DecidableEq, Repr

/-- metav1.TypeMeta: apiVersion and kind of a top-level object. -/
structure TypeMeta where
  apiVersion : String
  kind : String
deriving DecidableEq, Repr

/-- metav1.Status: only the Message field is used by this program. -/
structure Status where
  message : String
deriving DecidableEq, Repr

/-- admissionv1.AdmissionRequest: the fields validatePod reads. -/
structure AdmissionRequest where
  uid : String
  resource : GroupVersionResource
  object : RawExtension
deriving DecidableEq, Repr

/-- admissionv1.AdmissionResponse: the fields validatePod writes.
The Go zero value has Allowed=false, Result=nil, Warnings=nil, UID empty. -/
structure AdmissionResponse where
  uid : String := ""
  allowed : Bool := false
  result : Option Status := none
  warnings : List String := []
deriving DecidableEq, Repr

/-- admissionv1.AdmissionReview: TypeMeta plus optional Request/Response
pointers (nil pointers are none). -/
structure AdmissionReview where
  typeMeta : TypeMeta := ⟨"", ""⟩
  request : Option AdmissionRequest := none
  response : Option AdmissionResponse := none
deriving DecidableEq, Repr

/-- corev1.Pod: the only field the policy reads is the label map
(pod.Labels), modelled as an association list. -/
structure Pod where
  labels : List (String × String)
deriving DecidableEq, Repr

/-- schema.GroupVersion. -/
structure GroupVersion where
  group : String
  version : String
deriving DecidableEq, Repr

/-- schema.GroupVersionKind. -/
structure GroupVersionKind where
  group : String := ""
  version : String := ""
  kind : String := ""
deriving DecidableEq, Repr

/-- schema.ParseGroupVersion: empty or "/" parse to the zero GroupVersion;
no slash means version only; one slash splits at strings.Index (splitting
at the first slash gives the same two pieces whether positions are counted
in bytes as in Go or in characters as here); more slashes are an error
(none). -/
def parseGroupVersion (gv : String) : Option GroupVersion :=
  if gv = "" ∨ gv = "/" then some ⟨"", ""⟩
  else
    match gv.toList.count '/' with
    | 0 => some ⟨"", gv⟩
    | 1 =>
        let i := gv.toList.findIdx (fun c => c == '/')
        some ⟨⟨gv.toList.take i⟩, ⟨gv.toList.drop (i + 1)⟩⟩
    | _ => none

/-- schema.GroupVersion.String(): "group/version", or just "version" when
the group is empty. -/
def GroupVersion.render (gv : GroupVersion) : String :=
  if gv.group = "" then gv.version else gv.group ++ "/" ++ gv.version

/-- schema.FromAPIVersionAndKind: parse apiVersion into group/version,
falling back to the zero GroupVersionKind (kind only) on a parse error. -/
def fromAPIVersionAndKind (apiVersion kind : String) : GroupVersionKind :=
  match parseGroupVersion apiVersion with
  | some gv => ⟨gv.group, gv.version, kind⟩
  | none => { kind := kind }

/-- schema.GroupVersionKind.GroupVersion(). -/
def GroupVersionKind.groupVersion (gvk : GroupVersionKind) : GroupVersion :=
  ⟨gvk.group, gvk.version⟩

/-- metav1.TypeMeta.GroupVersionKind(). -/
def TypeMeta.groupVersionKind (tm : TypeMeta) : GroupVersionKind :=
  fromAPIVersionAndKind tm.apiVersion tm.kind

/-- metav1.TypeMeta.SetGroupVersionKind: apiVersion becomes
gvk.GroupVersion().String(), kind becomes gvk.Kind. -/
def TypeMeta.setGroupVersionKind (gvk : GroupVersionKind) : TypeMeta :=
  ⟨gvk.groupVersion.render, gvk.kind⟩

/-- cmd/root.go lines 120-133: build the AdmissionResponse from the pod.
Starts from the zero response, sets Allowed=true, then denies with a
message when the "hello" label is missing, or adds a deprecation warning
when its value is exactly "world". -/
def evaluatePod (pod : Pod) : AdmissionResponse :=
  let base : AdmissionResponse := { allowed := true }
  match pod.labels.lookup "hello" with
  | none =>
      { base with
        allowed := false
        result := some ⟨"missing required hello label"⟩ }
  | some value =>
      if value = "world" then
        { base with
          warnings := ["world will be deprecated for hello in the future"] }
      else
        base

/-- cmd/root.go line 100: the expected pod resource triple. -/
def podResource : GroupVersionResource := ⟨"", "v1", "pods"⟩

/-- The HTTP request as the handler observes it: the Content-Type header
value and the (possibly nil) body bytes. -/
structure HttpRequest where
  contentType : String
  body : Option (List Nat)

/-- What the handler writes back: one body, either plain error text or
marshalled JSON bytes. -/
inductive HttpBody where
  | text (s : String)
  | json (bs : List Nat)
deriving DecidableEq, Repr

/-- The externally observable HTTP outcome: status code (w.Write without a
prior WriteHeader is status 200), the Content-Type header the handler set,
and the body. -/
structure HttpResult where
  status : Nat
  contentType : Option String
  body : HttpBody
deriving DecidableEq, Repr

/-- The external collaborators of validatePod: the universal deserializer
applied to an AdmissionReview, the same deserializer applied to a Pod, and
json.Marshal for the response review. -/
structure Env where
  decodeReview : List Nat → Except String AdmissionReview
  decodePod : List Nat → Except String Pod
  marshal : AdmissionReview → Except String (List Nat)

/-- cmd/root.go lines 56-80, admissionReviewFromRequest: reject any
Content-Type other than application/json, read the body (nil body means
nil bytes), and decode it as an AdmissionReview. -/
def admissionReviewFromRequest (env : Env) (r : HttpRequest) :
    Except String AdmissionReview :=
  if r.contentType ≠ "application/json" then
    .error "expected application/json content-type"
  else
    env.decodeReview (r.body.getD [])

/-- cmd/root.go lines 135-139: the response AdmissionReview, built from the
zero value by setting Response, copying the request review's
GroupVersionKind, and copying the request's UID into the response. -/
def responseReview (reqReview : AdmissionReview) (req : AdmissionRequest)
    (resp : AdmissionResponse) : AdmissionReview :=
  { typeMeta := TypeMeta.setGroupVersionKind reqReview.typeMeta.groupVersionKind
    request := none
    response := some { resp with uid := req.uid } }

/-- cmd/root.go lines 82-153, validatePod. Returns none exactly when the Go
code dereferences a nil Request pointer (a panic, so no response is
written). Error paths write 400/500 with the logged message; the success
path writes the marshalled response with status 200. -/
def validatePod (env : Env) (r : HttpRequest) : Option HttpResult :=
  match admissionReviewFromRequest env r with
  | .error e =>
      some ⟨400, none,
        .text ("error getting admission review from request: " ++ e)⟩
  | .ok rev =>
      match rev.request with
      | none => none
      | some req =>
          if req.resource ≠ podResource then
            some ⟨400, none,
              .text ("did not receive pod, got " ++ req.resource.resource)⟩
          else
            match env.decodePod req.object.raw with
            | .error e =>
                some ⟨500, none, .text ("error decoding raw pod: " ++ e)⟩
            | .ok pod =>
                match env.marshal (responseReview rev req (evaluatePod pod)) with
                | .error e =>
                    some ⟨500, none,
                      .text ("error marshalling response json: " ++ e)⟩
                | .ok bs =>
                    some ⟨200, some "application/json", .json bs⟩

/-- A well-formed inbound HTTP request: correct Content-Type, some body. -/
def rOk : HttpRequest := ⟨"application/json", some []⟩

/-- A well-formed admission request targeting the pod resource. -/
def reqOk : AdmissionRequest := ⟨"req-uid-1", podResource, ⟨[]⟩⟩

/-- A well-formed AdmissionReview envelope wrapping reqOk. -/
def revOk : AdmissionReview :=
  { typeMeta := ⟨"admission.k8s.io/v1", "AdmissionReview"⟩
    request := some reqOk }

/-- An environment whose deserializer rejects everything. -/
def envStub : Env :=
  ⟨fun _ => .error "stub", fun _ => .error "stub", fun _ => .ok []⟩

/-- An environment that decodes every body to revOk, every raw object to
the label-free pod, and marshals successfully. -/
def envOk : Env :=
  ⟨fun _ => .ok revOk, fun _ => .ok ⟨[]⟩, fun _ => .ok [1]⟩

/-- An environment whose pod decoding fails after a valid envelope. -/
def envPodErr : Env :=
  ⟨fun _ => .ok revOk, fun _ => .error "podboom", fun _ => .ok []⟩

/-- An admission request whose resource triple is a Deployment, not a Pod. -/
def reqDeploy : AdmissionRequest :=
  ⟨"req-uid-2", ⟨"apps", "v1", "deployments"⟩, ⟨[]⟩⟩

/-- An AdmissionReview envelope wrapping the Deployment-typed request. -/
def revDeploy : AdmissionReview :=
  { typeMeta := ⟨"admission.k8s.io/v1", "AdmissionReview"⟩
    request := some reqDeploy }

/-- An environment that decodes every body to revDeploy. -/
def envDeploy : Env :=
  ⟨fun _ => .ok revDeploy, fun _ => .error "unused", fun _ => .ok []⟩

/-- An AdmissionReview whose apiVersion "/v1" is accepted by the
schema-less deserializer (the program builds its CodecFactory over an
empty Scheme, so decoding validates no apiVersion) but does not survive
the GroupVersionKind round trip of line 138. -/
def revSlash : AdmissionReview :=
  { typeMeta := ⟨"/v1", "AdmissionReview"⟩
    request := some reqOk }

/-- An environment that decodes every body to revSlash. -/
def envSlash : Env :=
  ⟨fun _ => .ok revSlash, fun _ => .ok ⟨[]⟩, fun _ => .ok []⟩

/-- An AdmissionReview with an absent (nil) request pointer, as produced by
the schema-less deserializer on a body like "{}". -/
def revNilRequest : AdmissionReview :=
  { typeMeta := ⟨"admission.k8s.io/v1", "AdmissionReview"⟩ }

/-- An environment that decodes every body to revNilRequest. -/
def envNilRequest : Env :=
  ⟨fun _ => .ok revNilRequest, fun _ => .error "unused", fun _ => .ok []⟩

/-- FromAPIVersionAndKind always carries the kind through unchanged, on
both the parsed and the parse-error branch. -/
theorem fromAPIVersionAndKind_kind (a k : String) :
    (fromAPIVersionAndKind a k).kind = k := by
  unfold fromAPIVersionAndKind
  cases h : parseGroupVersion a <;> simp [h]

/-- C1: for every Pod whose label set does not contain the key "hello",
the policy evaluation produces allowed=false, status message exactly
"missing required hello label", and an empty warnings list. -/
theorem evaluatePod_missing_hello (pod : Pod)
    (h : pod.labels.lookup "hello" = none) :
    (evaluatePod pod).allowed = false ∧
    (evaluatePod pod).result = some ⟨"missing required hello label"⟩ ∧
    (evaluatePod pod).warnings = [] := by
  simp [evaluatePod, h]

/-- C1 witness: the empty label set has no "hello" key and is denied with
the exact message and no warnings. -/
theorem evaluatePod_missing_hello_witness :
    (Pod.mk []).labels.lookup "hello" = none ∧
    ((evaluatePod (Pod.mk [])).allowed = false ∧
     (evaluatePod (Pod.mk [])).result = some ⟨"missing required hello label"⟩ ∧
     (evaluatePod (Pod.mk [])).warnings = []) :=
  ⟨rfl, evaluatePod_missing_hello (Pod.mk []) rfl⟩

/-- C2: for every Pod whose label set maps "hello" to exactly "world", the
policy evaluation produces allowed=true, no status message, and warnings
equal to the single deprecation string. -/
theorem evaluatePod_hello_world (pod : Pod)
    (h : pod.labels.lookup "hello" = some "world") :
    (evaluatePod pod).allowed = true ∧
    (evaluatePod pod).result = none ∧
    (evaluatePod pod).warnings =
      ["world will be deprecated for hello in the future"] := by
  simp [evaluatePod, h]

/-- C2 witness: the label set [("hello", "world")] is allowed with exactly
the deprecation warning. -/
theorem evaluatePod_hello_world_witness :
    (Pod.mk [("hello", "world")]).labels.lookup "hello" = some "world" ∧
    ((evaluatePod (Pod.mk [("hello", "world")])).allowed = true ∧
     (evaluatePod (Pod.mk [("hello", "world")])).result = none ∧
     (evaluatePod (Pod.mk [("hello", "world")])).warnings =
       ["world will be deprecated for hello in the future"]) :=
  ⟨rfl, evaluatePod_hello_world (Pod.mk [("hello", "world")]) rfl⟩

/-- C3: for every Pod whose label set maps "hello" to any value other than
"world" (exact, case-sensitive comparison; the empty string counts as
present), the policy evaluation produces allowed=true, no status message,
and an empty warnings list. -/
theorem evaluatePod_hello_other (pod : Pod) (v : String)
    (h : pod.labels.lookup "hello" = some v) (hv : v ≠ "world") :
    (evaluatePod pod).allowed = true ∧
    (evaluatePod pod).result = none ∧
    (evaluatePod pod).warnings = [] := by
  simp [evaluatePod, h, hv]

/-- C3 witness: the label set [("hello", "")] carries the key with the
empty-string value, which differs from "world", and is allowed with no
message and no warnings. -/
theorem evaluatePod_hello_other_witness :
    (Pod.mk [("hello", "")]).labels.lookup "hello" = some "" ∧
    ("" : String) ≠ "world" ∧
    ((evaluatePod (Pod.mk [("hello", "")])).allowed = true ∧
     (evaluatePod (Pod.mk [("hello", "")])).result = none ∧
     (evaluatePod (Pod.mk [("hello", "")])).warnings = []) :=
  ⟨rfl, by decide,
    evaluatePod_hello_other (Pod.mk [("hello", "")]) "" rfl (by decide)⟩

/-- C9: for every Pod input, the produced verdict carries a status message
if and only if it is a denial: result is present exactly when allowed is
false. -/
theorem evaluatePod_message_iff_denied (pod : Pod) :
    (evaluatePod pod).result.isSome ↔ (evaluatePod pod).allowed = false := by
  unfold evaluatePod
  cases pod.labels.lookup "hello" with
  | none => simp
  | some v =>
      by_cases hv : v = "world" <;> simp [hv]

/-- C5: for every request whose Content-Type header is not exactly
"application/json", the handler responds 400 with the fixed error text;
the result is the same for every environment, so neither the envelope nor
any embedded object is ever decoded. -/
theorem validatePod_bad_content_type (env : Env) (r : HttpRequest)
    (h : r.contentType ≠ "application/json") :
    validatePod env r =
      some ⟨400, none,
        .text "error getting admission review from request: expected application/json content-type"⟩ := by
  simp [validatePod, admissionReviewFromRequest, h]

/-- C5 witness: a text/plain request against the rejecting environment is
answered 400 without decoding. -/
theorem validatePod_bad_content_type_witness :
    ("text/plain" ≠ "application/json") ∧
    validatePod envStub ⟨"text/plain", some []⟩ =
      some ⟨400, none,
        .text "error getting admission review from request: expected application/json content-type"⟩ :=
  ⟨by decide, validatePod_bad_content_type envStub ⟨"text/plain", some []⟩ (by decide)⟩

/-- C6: for every successfully decoded envelope whose resource triple is
not the pod triple, the handler responds 400 with a body naming the
unexpected resource, and the result is unchanged under any replacement of
the pod decoder, so the embedded object is never decoded as a Pod. -/
theorem validatePod_resource_mismatch (env : Env) (r : HttpRequest)
    (rev : AdmissionReview) (req : AdmissionRequest)
    (h1 : admissionReviewFromRequest env r = .ok rev)
    (h2 : rev.request = some req)
    (h3 : req.resource ≠ podResource) :
    validatePod env r =
      some ⟨400, none,
        .text ("did not receive pod, got " ++ req.resource.resource)⟩ ∧
    ∀ dp, validatePod { env with decodePod := dp } r = validatePod env r := by
  have h1d : ∀ dp : List Nat → Except String Pod,
      admissionReviewFromRequest { env with decodePod := dp } r = .ok rev := fun _ => h1
  constructor
  · simp [validatePod, h1, h2, h3]
  · intro dp
    simp [validatePod, h1, h1d dp, h2, h3]

/-- C6 witness: a Deployment-typed envelope yields 400 naming
"deployments", independently of the pod decoder. -/
theorem validatePod_resource_mismatch_witness :
    admissionReviewFromRequest envDeploy rOk = .ok revDeploy ∧
    revDeploy.request = some reqDeploy ∧
    reqDeploy.resource ≠ podResource ∧
    (validatePod envDeploy rOk =
      some ⟨400, none,
        .text ("did not receive pod, got " ++ reqDeploy.resource.resource)⟩ ∧
     ∀ dp, validatePod { envDeploy with decodePod := dp } rOk =
       validatePod envDeploy rOk) :=
  ⟨rfl, rfl, by decide,
    validatePod_resource_mismatch envDeploy rOk revDeploy reqDeploy rfl rfl (by decide)⟩

/-- C7: every successfully evaluated request (valid envelope, pod resource
triple, decodable Pod, serializable response) is answered with status 200,
whatever the verdict: the pod, and hence allow or deny, is universally
quantified, so a policy denial never produces a non-200 status. -/
theorem validatePod_success_200 (env : Env) (r : HttpRequest)
    (rev : AdmissionReview) (req : AdmissionRequest) (pod : Pod) (bs : List Nat)
    (h1 : admissionReviewFromRequest env r = .ok rev)
    (h2 : rev.request = some req)
    (h3 : req.resource = podResource)
    (h4 : env.decodePod req.object.raw = .ok pod)
    (h5 : env.marshal (responseReview rev req (evaluatePod pod)) = .ok bs) :
    validatePod env r = some ⟨200, some "application/json", .json bs⟩ := by
  simp [validatePod, h1, h2, h3, h4, h5]

/-- C7 witness: a pod with no labels is denied by the policy, yet the
handler still answers 200 with the marshalled body. -/
theorem validatePod_success_200_witness :
    admissionReviewFromRequest envOk rOk = .ok revOk ∧
    revOk.request = some reqOk ∧
    reqOk.resource = podResource ∧
    envOk.decodePod reqOk.object.raw = .ok (Pod.mk []) ∧
    envOk.marshal (responseReview revOk reqOk (evaluatePod (Pod.mk []))) = .ok [1] ∧
    (evaluatePod (Pod.mk [])).allowed = false ∧
    validatePod envOk rOk = some ⟨200, some "application/json", .json [1]⟩ :=
  ⟨rfl, rfl, rfl, rfl, rfl, rfl,
    validatePod_success_200 envOk rOk revOk reqOk (Pod.mk []) [1] rfl rfl rfl rfl rfl⟩

/-- C8: an envelope-level decode failure (with the correct content type)
is answered 400 with the envelope error text, whereas a failure to decode
the embedded raw pod bytes after a valid envelope with the pod triple is
answered 500 with the pod error text. -/
theorem validatePod_decode_error_statuses (env : Env) (r : HttpRequest) :
    (∀ e, r.contentType = "application/json" →
      env.decodeReview (r.body.getD []) = .error e →
      validatePod env r =
        some ⟨400, none,
          .text ("error getting admission review from request: " ++ e)⟩) ∧
    (∀ rev req e, admissionReviewFromRequest env r = .ok rev →
      rev.request = some req → req.resource = podResource →
      env.decodePod req.object.raw = .error e →
      validatePod env r =
        some ⟨500, none, .text ("error decoding raw pod: " ++ e)⟩) := by
  constructor
  · intro e hct hdec
    simp [validatePod, admissionReviewFromRequest, hct, hdec]
  · intro rev req e h1 h2 h3 h4
    simp [validatePod, h1, h2, h3, h4]

/-- C8 witness: a rejected body yields 400 with the envelope error, and a
valid envelope with undecodable pod bytes yields 500 with the pod error. -/
theorem validatePod_decode_error_statuses_witness :
    (rOk.contentType = "application/json" ∧
     envStub.decodeReview (rOk.body.getD []) = .error "stub" ∧
     validatePod envStub rOk =
       some ⟨400, none,
         .text ("error getting admission review from request: " ++ "stub")⟩) ∧
    (admissionReviewFromRequest envPodErr rOk = .ok revOk ∧
     revOk.request = some reqOk ∧
     reqOk.resource = podResource ∧
     envPodErr.decodePod reqOk.object.raw = .error "podboom" ∧
     validatePod envPodErr rOk =
       some ⟨500, none, .text ("error decoding raw pod: " ++ "podboom")⟩) :=
  ⟨⟨rfl, rfl,
     (validatePod_decode_error_statuses envStub rOk).1 "stub" rfl rfl⟩,
   ⟨rfl, rfl, rfl, rfl,
     (validatePod_decode_error_statuses envPodErr rOk).2 revOk reqOk "podboom"
       rfl rfl rfl rfl⟩⟩

/-- C4 (amended): for every request with a valid envelope and a decodable
Pod, the response review's uid equals the inbound request's uid and its
kind equals the inbound envelope's kind, always; its apiVersion equals the
inbound apiVersion whenever that string survives the group/version
parse-and-render round trip of line 138 (as every well-formed Kubernetes
apiVersion does); and the handler answers with exactly this review
marshalled. -/
theorem validatePod_response_correlation (env : Env) (r : HttpRequest)
    (rev : AdmissionReview) (req : AdmissionRequest) (pod : Pod)
    (h1 : admissionReviewFromRequest env r = .ok rev)
    (h2 : rev.request = some req)
    (h3 : req.resource = podResource)
    (h4 : env.decodePod req.object.raw = .ok pod) :
    (responseReview rev req (evaluatePod pod)).response.map AdmissionResponse.uid
      = some req.uid ∧
    (responseReview rev req (evaluatePod pod)).typeMeta.kind = rev.typeMeta.kind ∧
    (rev.typeMeta.groupVersionKind.groupVersion.render = rev.typeMeta.apiVersion →
      (responseReview rev req (evaluatePod pod)).typeMeta = rev.typeMeta) ∧
    ∀ bs, env.marshal (responseReview rev req (evaluatePod pod)) = .ok bs →
      validatePod env r = some ⟨200, some "application/json", .json bs⟩ := by
  refine ⟨?_, ?_, ?_, ?_⟩
  · simp [responseReview]
  · simp [responseReview, TypeMeta.setGroupVersionKind, GroupVersionKind.groupVersion,
      TypeMeta.groupVersionKind, fromAPIVersionAndKind_kind]
  · intro hrt
    have hk := fromAPIVersionAndKind_kind rev.typeMeta.apiVersion rev.typeMeta.kind
    obtain ⟨⟨a, k⟩, rq, rs⟩ := rev
    simp only [responseReview, TypeMeta.setGroupVersionKind, TypeMeta.groupVersionKind] at *
    rw [hrt, hk]
  · intro bs h5
    simp [validatePod, h1, h2, h3, h4, h5]

/-- C4 witness: with the well-formed envelope (apiVersion
admission.k8s.io/v1) the uid, kind and apiVersion of the response all
match the inbound values and the handler answers 200 with the marshalled
review. -/
theorem validatePod_response_correlation_witness :
    admissionReviewFromRequest envOk rOk = .ok revOk ∧
    revOk.request = some reqOk ∧
    reqOk.resource = podResource ∧
    envOk.decodePod reqOk.object.raw = .ok (Pod.mk []) ∧
    ((responseReview revOk reqOk (evaluatePod (Pod.mk []))).response.map
        AdmissionResponse.uid = some reqOk.uid ∧
     (responseReview revOk reqOk (evaluatePod (Pod.mk []))).typeMeta.kind
        = revOk.typeMeta.kind ∧
     (revOk.typeMeta.groupVersionKind.groupVersion.render = revOk.typeMeta.apiVersion →
       (responseReview revOk reqOk (evaluatePod (Pod.mk []))).typeMeta
          = revOk.typeMeta) ∧
     ∀ bs, envOk.marshal (responseReview revOk reqOk (evaluatePod (Pod.mk []))) = .ok bs →
       validatePod envOk rOk = some ⟨200, some "application/json", .json bs⟩) :=
  ⟨rfl, rfl, rfl, rfl,
    validatePod_response_correlation envOk rOk revOk reqOk (Pod.mk []) rfl rfl rfl rfl⟩

/-- C4 counterexample: the schema-less deserializer accepts an envelope
with apiVersion "/v1" (valid envelope, pod triple, decodable Pod), but
line 138 re-renders that apiVersion as "v1", so the response's apiVersion
differs from the inbound envelope's. -/
theorem validatePod_response_correlation_cex :
    admissionReviewFromRequest envSlash rOk = .ok revSlash ∧
    revSlash.request = some reqOk ∧
    reqOk.resource = podResource ∧
    envSlash.decodePod reqOk.object.raw = .ok (Pod.mk []) ∧
    revSlash.typeMeta.apiVersion = "/v1" ∧
    (responseReview revSlash reqOk (evaluatePod (Pod.mk []))).typeMeta.apiVersion
      = "v1" ∧
    (responseReview revSlash reqOk (evaluatePod (Pod.mk []))).typeMeta.apiVersion
      ≠ revSlash.typeMeta.apiVersion :=
  ⟨rfl, rfl, rfl, rfl, rfl, rfl, by decide⟩

/-- C10 (amended): whenever every successful envelope decode for this
request carries a present request field, the handler writes some HTTP
response; with an absent (nil) request field it dereferences the nil
pointer and panics, writing nothing (see the counterexample). -/
theorem validatePod_writes_response (env : Env) (r : HttpRequest)
    (h : ∀ rev, admissionReviewFromRequest env r = .ok rev → rev.request.isSome) :
    (validatePod env r).isSome := by
  cases hd : admissionReviewFromRequest env r with
  | error e => simp [validatePod, hd]
  | ok rev =>
      cases hq : rev.request with
      | none =>
          have := h rev hd
          rw [hq] at this
          simp at this
      | some req =>
          by_cases hres : req.resource = podResource
          · cases hp : env.decodePod req.object.raw with
            | error e => simp [validatePod, hd, hq, hres, hp]
            | ok pod =>
                cases hm : env.marshal (responseReview rev req (evaluatePod pod)) with
                | error e => simp [validatePod, hd, hq, hres, hp, hm]
                | ok bs => simp [validatePod, hd, hq, hres, hp, hm]
          · simp [validatePod, hd, hq, hres]

/-- C10 witness: against the fully successful environment every accepted
envelope carries a request, and the handler indeed writes a response. -/
theorem validatePod_writes_response_witness :
    (∀ rev, admissionReviewFromRequest envOk rOk = .ok rev → rev.request.isSome) ∧
    (validatePod envOk rOk).isSome :=
  ⟨fun rev hrev => by
      have h2 : Except.ok (ε := String) revOk = Except.ok rev := hrev
      cases h2
      rfl,
   validatePod_writes_response envOk rOk (fun rev hrev => by
      have h2 : Except.ok (ε := String) revOk = Except.ok rev := hrev
      cases h2
      rfl)⟩

/-- C10 counterexample: a body that decodes to an AdmissionReview whose
request field is absent (e.g. the JSON body left at its zero value) makes
the handler dereference the nil Request pointer: it panics and writes no
HTTP response at all. -/
theorem validatePod_nil_request_panics :
    admissionReviewFromRequest envNilRequest rOk = .ok revNilRequest ∧
    revNilRequest.request = none ∧
    validatePod envNilRequest rOk = none :=
  ⟨rfl, rfl, rfl⟩

end ValidatingWebhook
